import Mathlib

set_option maxRecDepth 100000
set_option maxHeartbeats 1000000

/-!
Verification of the payflow-ops payment-operations dashboard core.

Shallow embedding of the repository's core primitives:
* the payment lifecycle state machine (src/lib/state-machines/payment-lifecycle.ts),
* the simplified transition table of the /api/payments/[id]/transition route,
* the payment transition table of src/lib/types (payment types module),
* the idempotency utilities (hashRequest, isValidIdempotencyKey),
* the MSW payment handlers (createPayment, transitionPayment),
* the payout reconcile handler,
* the SSE hook's message/error processing (gap detection, backoff),
* the backpressure buffer's push step.

JavaScript Maps are modelled as association lists with replace-or-append
update; `Date.now()` / generated ids are passed in as explicit parameters;
JSON values are a mutually inductive syntax tree so that the fingerprint
serializer computes by kernel reduction.
-/

/-- The seven payment statuses of the PaymentStatus union type. -/
inductive PaymentStatus where
  | draft
  | submitted
  | processing
  | requires_action
  | succeeded
  | failed
  | canceled
deriving DecidableEq, Repr

/-- The status literal, as it appears in the TypeScript union. -/
def PaymentStatus.toStr : PaymentStatus → String
  | .draft => "draft"
  | .submitted => "submitted"
  | .processing => "processing"
  | .requires_action => "requires_action"
  | .succeeded => "succeeded"
  | .failed => "failed"
  | .canceled => "canceled"

/-- All seven statuses (the allStatuses list of getTerminalStatuses). -/
def allPaymentStatuses : List PaymentStatus :=
  [.draft, .submitted, .processing, .requires_action, .succeeded, .failed, .canceled]

/-- Modelled from the spec: the payment state graph of section 4.1,
"draft to submitted or canceled; submitted to processing, failed or canceled;
processing to requires_action, succeeded or failed; requires_action to
processing, succeeded, failed or canceled; succeeded, failed, canceled are
terminal".  This is the spec-side definition used to compare the three code
tables against the spec's graph. -/
def specPaymentTargets : PaymentStatus → List PaymentStatus
  | .draft => [.submitted, .canceled]
  | .submitted => [.processing, .failed, .canceled]
  | .processing => [.requires_action, .succeeded, .failed]
  | .requires_action => [.processing, .succeeded, .failed, .canceled]
  | .succeeded => []
  | .failed => []
  | .canceled => []

namespace PaymentLifecycle

/-- TransitionDefinition of payment-lifecycle.ts.  The source fields `from`
and `to` are Lean keywords and are rendered `src` and `tgt`. -/
structure TransitionDefinition where
  src : PaymentStatus
  tgt : PaymentStatus
  action : String
  description : String
  sideEffects : List String
  isDestructive : Bool
deriving DecidableEq, Repr

/-- PAYMENT_TRANSITIONS: the exhaustive transition list of
payment-lifecycle.ts. -/
def PAYMENT_TRANSITIONS : List TransitionDefinition := [
  -- From draft
  { src := .draft, tgt := .submitted, action := "Submit",
    description := "Submit payment for processing",
    sideEffects := ["Payment sent to processor", "Idempotency key consumed"],
    isDestructive := false },
  { src := .draft, tgt := .canceled, action := "Cancel",
    description := "Cancel draft payment",
    sideEffects := ["None - payment was never submitted"],
    isDestructive := false },
  -- From submitted
  { src := .submitted, tgt := .processing, action := "Process",
    description := "Begin processing with payment processor",
    sideEffects := ["Processor begins authorization"],
    isDestructive := false },
  { src := .submitted, tgt := .failed, action := "Fail",
    description := "Mark as failed before processing",
    sideEffects := ["None - no funds were held"],
    isDestructive := true },
  { src := .submitted, tgt := .canceled, action := "Cancel",
    description := "Cancel submitted payment",
    sideEffects := ["None - not yet processed"],
    isDestructive := false },
  -- From processing
  { src := .processing, tgt := .requires_action, action := "Require Action",
    description := "Additional verification required (3DS, etc.)",
    sideEffects := ["Customer notified of required action"],
    isDestructive := false },
  { src := .processing, tgt := .succeeded, action := "Succeed",
    description := "Payment authorized and captured",
    sideEffects := ["Funds captured from customer", "Merchant balance credited"],
    isDestructive := true },
  { src := .processing, tgt := .failed, action := "Fail",
    description := "Payment failed during processing",
    sideEffects := ["Authorization declined", "No funds captured"],
    isDestructive := true },
  -- From requires_action
  { src := .requires_action, tgt := .processing, action := "Continue",
    description := "Customer completed required action",
    sideEffects := ["Verification result sent to processor"],
    isDestructive := false },
  { src := .requires_action, tgt := .succeeded, action := "Succeed",
    description := "Payment completed after action",
    sideEffects := ["Funds captured from customer", "Merchant balance credited"],
    isDestructive := true },
  { src := .requires_action, tgt := .failed, action := "Fail",
    description := "Required action failed or timed out",
    sideEffects := ["Authorization voided", "No funds captured"],
    isDestructive := true },
  { src := .requires_action, tgt := .canceled, action := "Cancel",
    description := "Cancel payment awaiting action",
    sideEffects := ["Authorization voided if held"],
    isDestructive := false }
  -- Terminal states: succeeded, failed, canceled have no outgoing transitions
]

/-- getValidTransitions: all transitions out of a status. -/
def getValidTransitions (fromStatus : PaymentStatus) : List TransitionDefinition :=
  PAYMENT_TRANSITIONS.filter (fun t => t.src = fromStatus)

/-- canTransition: the source keys a Map by the string "from->to" built from
PAYMENT_TRANSITIONS and asks `has`; since the key determines the pair, that
is membership of the (from, to) pair in the list. -/
def canTransition (src tgt : PaymentStatus) : Bool :=
  PAYMENT_TRANSITIONS.any (fun t => t.src = src && t.tgt = tgt)

/-- getTransition: Map lookup, i.e. the first matching list entry. -/
def getTransition (src tgt : PaymentStatus) : Option TransitionDefinition :=
  PAYMENT_TRANSITIONS.find? (fun t => t.src = src && t.tgt = tgt)

/-- getTransitionBlockReason of payment-lifecycle.ts. -/
def getTransitionBlockReason (src tgt : PaymentStatus) : String :=
  if canTransition src tgt then ""
  else
    let validFromCurrent := getValidTransitions src
    if validFromCurrent.length = 0 then
      "Payment is in terminal state \"" ++ src.toStr ++ "\" — no further transitions allowed"
    else
      let validTargets := validFromCurrent.map (fun t => t.tgt)
      if !(validTargets.contains tgt) then
        "Cannot transition from \"" ++ src.toStr ++ "\" to \"" ++ tgt.toStr ++
          "\". Valid targets: " ++ String.intercalate ", " (validTargets.map PaymentStatus.toStr)
      else
        "Invalid transition from \"" ++ src.toStr ++ "\" to \"" ++ tgt.toStr ++ "\""

/-- isTerminalStatus: no outgoing transitions. -/
def isTerminalStatus (status : PaymentStatus) : Bool :=
  (getValidTransitions status).length = 0

end PaymentLifecycle

namespace PaymentsTransitionRoute

/-- VALID_TRANSITIONS of the /api/payments/[id]/transition route ("Simplified
state machine").  Note: `submitted` lists only processing and canceled. -/
def VALID_TRANSITIONS : PaymentStatus → List PaymentStatus
  | .draft => [.submitted, .canceled]
  | .submitted => [.processing, .canceled]
  | .processing => [.succeeded, .failed, .requires_action]
  | .requires_action => [.processing, .succeeded, .failed, .canceled]
  | .succeeded => []
  | .failed => []
  | .canceled => []

end PaymentsTransitionRoute

namespace PayoutTypes

/-- PAYMENT_TRANSITIONS of the payment types module (the record of target
lists).  Note: `submitted` lists only processing and failed. -/
def PAYMENT_TRANSITIONS : PaymentStatus → List PaymentStatus
  | .draft => [.submitted, .canceled]
  | .submitted => [.processing, .failed]
  | .processing => [.requires_action, .succeeded, .failed]
  | .requires_action => [.processing, .succeeded, .failed, .canceled]
  | .succeeded => []
  | .failed => []
  | .canceled => []

/-- canTransitionPayment: membership in the record's target list. -/
def canTransitionPayment (src tgt : PaymentStatus) : Bool :=
  (PAYMENT_TRANSITIONS src).contains tgt

end PayoutTypes

/-- Claim C1: the canonical lifecycle module's legality check agrees with the
spec's payment state graph on every pair, but the claim that every
transition-validating code path does so is false: the transition route's
VALID_TRANSITIONS table rejects submitted to failed, and the types module's
canTransitionPayment rejects submitted to canceled, though both edges are in
the spec graph (and in the canonical table the code documents as the sole
source of truth). -/
theorem C1_transition_tables_diverge :
    (∀ s t : PaymentStatus,
      PaymentLifecycle.canTransition s t = (specPaymentTargets s).contains t)
    ∧ (PaymentsTransitionRoute.VALID_TRANSITIONS .submitted).contains .failed = false
    ∧ (specPaymentTargets .submitted).contains .failed = true
    ∧ PaymentLifecycle.canTransition .submitted .failed = true
    ∧ PayoutTypes.canTransitionPayment .submitted .canceled = false
    ∧ (specPaymentTargets .submitted).contains .canceled = true
    ∧ PaymentLifecycle.canTransition .submitted .canceled = true := by
  refine ⟨fun s t => ?_, by decide, by decide, by decide, by decide, by decide, by decide⟩
  cases s <;> cases t <;> decide

namespace Backpressure

/-- One `push(item)` call of the backpressure buffer, acting on the pair of
the queue (oldest first) and the dropped counter: if the queue is at or
above maxBufferSize, shift the oldest entry and bump droppedCount, then
append the new item at the back.  The eviction precedes the append exactly
as in the source. -/
def pushStep {α : Type} (maxBufferSize : Nat) (st : List α × Nat) (item : α) :
    List α × Nat :=
  let st := if st.1.length ≥ maxBufferSize then (st.1.tail, st.2 + 1) else st
  (st.1 ++ [item], st.2)

/-- Queue-length preservation: a push keeps the length at most the capacity
(capacity at least 1). -/
theorem pushStep_length_le {α : Type} (C : Nat) (hC : 1 ≤ C)
    (st : List α × Nat) (item : α) (h : st.1.length ≤ C) :
    (pushStep C st item).1.length ≤ C := by
  unfold pushStep
  by_cases hfull : st.1.length ≥ C
  · simp only [hfull, if_pos]
    simp [List.length_tail]
    omega
  · simp only [hfull, if_neg, not_false_iff]
    simp
    omega

/-- Folding pushes from a state within capacity: the final queue length is
min (start + N) C and the dropped counter grows by (start + N) - C
(truncated subtraction). -/
theorem foldl_pushStep_spec {α : Type} (C : Nat) (hC : 1 ≤ C)
    (items : List α) (st : List α × Nat) (h : st.1.length ≤ C) :
    (items.foldl (pushStep C) st).1.length = min (st.1.length + items.length) C
    ∧ (items.foldl (pushStep C) st).2 = st.2 + (st.1.length + items.length - C) := by
  induction items generalizing st with
  | nil => simp; omega
  | cons x items ih =>
    simp only [List.foldl_cons, List.length_cons]
    by_cases hfull : st.1.length ≥ C
    · have hlen : st.1.length = C := le_antisymm h hfull
      have hne : st.1 ≠ [] := by
        intro hnil; rw [hnil] at hlen; simp at hlen; omega
      have hst' : (pushStep C st x).1.length = C := by
        unfold pushStep
        simp only [hfull, if_pos]
        simp [List.length_tail]
        omega
      have hd' : (pushStep C st x).2 = st.2 + 1 := by
        unfold pushStep
        simp [hfull]
      obtain ⟨h1, h2⟩ := ih (pushStep C st x) (le_of_eq hst')
      refine ⟨?_, ?_⟩
      · rw [h1, hst', hlen]; omega
      · rw [h2, hst', hd', hlen]; omega
    · push_neg at hfull
      have hst' : (pushStep C st x).1.length = st.1.length + 1 := by
        unfold pushStep
        simp only [not_le.mpr hfull, if_neg, not_false_iff]
        simp
      have hd' : (pushStep C st x).2 = st.2 := by
        unfold pushStep
        simp [not_le.mpr hfull]
      obtain ⟨h1, h2⟩ := ih (pushStep C st x) (by omega)
      refine ⟨?_, ?_⟩
      · rw [h1, hst']; omega
      · rw [h2, hst', hd']; omega

end Backpressure

/-- Claim C3: for a buffer of capacity C at least 1 and any push sequence
with no intervening flush, (a) the queue length after every prefix of pushes
is at most C, (b) the dropped counter after all N pushes is max(0, N - C),
and (c) a push that finds the queue full drops exactly the single oldest
entry and then appends the new item at the back.  The eviction happening
before the append is part (c)'s equation: the result queue is the tail of
the old queue with the item appended, so the length never exceeds C even
transiently. -/
theorem C3_buffer_bound {α : Type} (C : Nat) (hC : 1 ≤ C) (items : List α)
    (n : Nat) (q : List α) (d : Nat) (x : α) (hfull : q.length = C) :
    ((items.take n).foldl (Backpressure.pushStep C) ([], 0)).1.length ≤ C
    ∧ (((items.foldl (Backpressure.pushStep C) ([], 0)).2 : Int)
        = max ((items.length : Int) - (C : Int)) 0)
    ∧ Backpressure.pushStep C (q, d) x = (q.tail ++ [x], d + 1) := by
  refine ⟨?_, ?_, ?_⟩
  · have h := Backpressure.foldl_pushStep_spec C hC (items.take n) ([], 0) (by simp)
    rw [h.1]; simp
  · have h := Backpressure.foldl_pushStep_spec C hC items ([], 0) (by simp)
    rw [h.2]
    simp
    omega
  · unfold Backpressure.pushStep
    simp [hfull, hC]

/-- Claim C3 witness: capacity 2, pushes [10, 20, 30], prefix length 2, and a
full queue [1, 2] receiving 3. -/
theorem C3_buffer_bound_witness :
    1 ≤ 2 ∧ ([1, 2] : List Nat).length = 2
    ∧ ((([10, 20, 30] : List Nat).take 2).foldl (Backpressure.pushStep 2) ([], 0)).1.length ≤ 2
    ∧ (((([10, 20, 30] : List Nat).foldl (Backpressure.pushStep 2) ([], 0)).2 : Int)
        = max ((([10, 20, 30] : List Nat).length : Int) - (2 : Int)) 0)
    ∧ Backpressure.pushStep 2 (([1, 2] : List Nat), 0) 3 = ([2, 3], 0 + 1) := by
  refine ⟨by decide, by decide, ?_⟩
  have h := C3_buffer_bound (α := Nat) 2 (by decide) [10, 20, 30] 2 [1, 2] 0 3 (by decide)
  exact ⟨h.1, h.2.1, by rw [h.2.2]; rfl⟩

namespace SSE

/-- SSEConnectionState of the SSE hook. -/
inductive ConnState where
  | connecting
  | connected
  | disconnected
  | error
deriving DecidableEq, Repr

/-- The hook's state together with the lastSequenceRef mutable ref (the
lastEventAt timestamp is not modelled; it never feeds back into control
flow). -/
structure HookState where
  connectionState : ConnState
  reconnectAttempt : Nat
  missedEvents : Nat
  error : Option String
  lastSequence : Option Nat
deriving DecidableEq, Repr

/-- The fresh state of a new connection. -/
def initialState : HookState :=
  { connectionState := .disconnected, reconnectAttempt := 0,
    missedEvents := 0, error := none, lastSequence := none }

/-- The onmessage handler's sequence bookkeeping: if a previous sequence was
seen and the new one jumps past it by more than one, add the gap size
(sequence - last - 1) to missedEvents; then record the sequence
unconditionally. -/
def onMessageSeq (s : HookState) (sequence : Nat) : HookState :=
  let s :=
    match s.lastSequence with
    | some last =>
        if sequence > last + 1 then
          { s with missedEvents := s.missedEvents + (sequence - last - 1) }
        else s
    | none => s
  { s with lastSequence := some sequence }

/-- Processing a whole list of message sequence numbers in order. -/
def processSequences (seqs : List Nat) (s : HookState) : HookState :=
  seqs.foldl onMessageSeq s

/-- The onerror handler: compute nextAttempt = reconnectAttempt + 1; if it
exceeds maxReconnectAttempts, enter the error state and schedule nothing;
otherwise schedule a reconnect after min(base * 2 ^ reconnectAttempt, cap)
milliseconds and enter the disconnected state with the bumped counter.  The
returned option is the scheduled delay. -/
def onError (maxReconnectAttempts base cap : Nat) (s : HookState) :
    HookState × Option Nat :=
  let nextAttempt := s.reconnectAttempt + 1
  if nextAttempt > maxReconnectAttempts then
    ({ s with connectionState := .error,
              error := some ("Failed to reconnect after "
                ++ toString maxReconnectAttempts ++ " attempts"),
              reconnectAttempt := nextAttempt }, none)
  else
    let delay := min (base * 2 ^ s.reconnectAttempt) cap
    ({ s with connectionState := .disconnected,
              reconnectAttempt := nextAttempt }, some delay)

end SSE

/-- Claim C5 counterexample: from a fresh state, processing the sequences
1, 2, 5, 6 leaves missedEvents at 2 (the missing sequences are 3 and 4),
not 3 as the claim states. -/
theorem C5_gap_counterexample :
    (SSE.processSequences [1, 2, 5, 6] SSE.initialState).missedEvents ≠ 3 := by
  decide

/-- Claim C5 amended: from a fresh connection state (lastSequence none,
missedEvents 0), processing the messages with sequence numbers 1, 2, 5, 6 in
order leaves the missed-events counter equal to 2, the number of sequences
in the gap (3 and 4). -/
theorem C5_gap_detection :
    (SSE.processSequences [1, 2, 5, 6] SSE.initialState).missedEvents = 2
    ∧ (SSE.processSequences [1, 2, 5, 6] SSE.initialState).lastSequence = some 6 := by
  decide

/-- Claim C7 counterexample: with the default base 1000 ms and cap 30000 ms,
the delay scheduled for the first reconnect attempt is exactly 1000
= min(1000 * 2 ^ 0, 30000); had any positive jitter j been added as the
claim states, the scheduled value min(1000 * 2 ^ 0 + j, 30000) would exceed
1000 (shown for the smallest jitter, 1 ms, and monotone in j).  The
embedded handler takes no randomness input because the source computes the
delay from the base, the cap and the attempt counter alone, so two runs at
the same attempt number always schedule the same delay. -/
theorem C7_no_jitter_counterexample :
    (SSE.onError 10 1000 30000 SSE.initialState).2 = some 1000
    ∧ min (1000 * 2 ^ 0 + 1) 30000 ≠ 1000 := by
  decide

/-- Claim C7 amended: when the bumped attempt counter k = reconnectAttempt + 1
does not exceed the maximum, the scheduled reconnect delay is exactly
min(baseDelay * 2 ^ (k - 1), maxDelay), with no jitter term: the delay is a
deterministic function of the base, the cap and the attempt number. -/
theorem C7_backoff_delay (maxAttempts base cap : Nat) (s : SSE.HookState)
    (h : s.reconnectAttempt + 1 ≤ maxAttempts) :
    (SSE.onError maxAttempts base cap s).2
      = some (min (base * 2 ^ ((s.reconnectAttempt + 1) - 1)) cap)
    ∧ (SSE.onError maxAttempts base cap s).1.reconnectAttempt
      = s.reconnectAttempt + 1
    ∧ (SSE.onError maxAttempts base cap s).1.connectionState
      = SSE.ConnState.disconnected := by
  unfold SSE.onError
  have hn : ¬ s.reconnectAttempt + 1 > maxAttempts := by omega
  simp [hn]

/-- Claim C7 witness: attempt number 3 (counter at 2) with the default base
and cap schedules min(1000 * 2 ^ 2, 30000) = 4000 ms. -/
theorem C7_backoff_delay_witness :
    ({ SSE.initialState with reconnectAttempt := 2 } : SSE.HookState).reconnectAttempt + 1 ≤ 10
    ∧ ((SSE.onError 10 1000 30000 { SSE.initialState with reconnectAttempt := 2 }).2
        = some (min (1000 * 2 ^ ((({ SSE.initialState with reconnectAttempt := 2 } : SSE.HookState).reconnectAttempt + 1) - 1)) 30000)
      ∧ (SSE.onError 10 1000 30000 { SSE.initialState with reconnectAttempt := 2 }).1.reconnectAttempt
        = ({ SSE.initialState with reconnectAttempt := 2 } : SSE.HookState).reconnectAttempt + 1
      ∧ (SSE.onError 10 1000 30000 { SSE.initialState with reconnectAttempt := 2 }).1.connectionState
        = SSE.ConnState.disconnected) :=
  ⟨by decide, C7_backoff_delay 10 1000 30000 _ (by decide)⟩

namespace Idempotency

mutual
/-- A JSON value, as produced by parsing a request body.  Numbers are
modelled as integers (request amounts and versions are integral); the
nested lists are their own inductives so that the serializer below is
structurally recursive and computes by kernel reduction. -/
inductive Json where
  | null
  | bool (b : Bool)
  | num (n : Int)
  | str (s : String)
  | arr (elems : JsonList)
  | obj (fields : JsonFields)
deriving DecidableEq, Repr

/-- A list of JSON array elements. -/
inductive JsonList where
  | nil
  | cons (hd : Json) (tl : JsonList)
deriving DecidableEq, Repr

/-- The ordered property list of a JSON object (insertion order, as
JavaScript object keys). -/
inductive JsonFields where
  | nil
  | cons (key : String) (val : Json) (tl : JsonFields)
deriving DecidableEq, Repr
end

/-- The keys of an object in insertion order (Object.keys). -/
def JsonFields.keys : JsonFields → List String
  | .nil => []
  | .cons k _ tl => k :: tl.keys

/-- Property access (JS object keys are unique; first match). -/
def JsonFields.get : JsonFields → String → Option Json
  | .nil, _ => none
  | .cons k v tl, key => if k = key then some v else tl.get key

/-- QuoteJSONString escaping for one character (the control characters
beyond newline, return and tab never occur in this development's data). -/
def escapeJsonChar (c : Char) : String :=
  if c = '"' then "\\\""
  else if c = '\\' then "\\\\"
  else if c = '\n' then "\\n"
  else if c = '\r' then "\\r"
  else if c = '\t' then "\\t"
  else String.singleton c

/-- QuoteJSONString: a double-quoted, escaped JSON string literal. -/
def quoteJson (s : String) : String :=
  "\"" ++ String.join (s.data.map escapeJsonChar) ++ "\""

/-- SerializeJSONObject's member selection under a replacer PropertyList:
for each key of the PropertyList in order, if the object has that property,
emit the quoted key, a colon and the property's serialization.  The braces
are written as escapes. -/
def selectEntries (keys : List String) (entries : List (String × String)) :
    List String :=
  keys.filterMap (fun k =>
    match entries.find? (fun e => e.1 = k) with
    | some e => some (quoteJson k ++ ":" ++ e.2)
    | none => none)

mutual
/-- JSON.stringify(value, keys) where keys is a replacer array: objects at
EVERY nesting depth keep only the properties named in the array, in array
order; arrays keep all elements. -/
def serialize (keys : List String) : Json → String
  | .null => "null"
  | .bool b => if b then "true" else "false"
  | .num n => toString n
  | .str s => quoteJson s
  | .arr xs => "[" ++ String.intercalate "," (serializeList keys xs) ++ "]"
  | .obj fs =>
      "\x7b" ++ String.intercalate "," (selectEntries keys (serializeFields keys fs)) ++ "\x7d"

/-- Serialization of every array element. -/
def serializeList (keys : List String) : JsonList → List String
  | .nil => []
  | .cons x tl => serialize keys x :: serializeList keys tl

/-- Serialization of every property of an object, paired with its key (the
PropertyList filter is applied by selectEntries afterwards). -/
def serializeFields (keys : List String) : JsonFields → List (String × String)
  | .nil => []
  | .cons k v tl => (k, serialize keys v) :: serializeFields keys tl
end

/-- Lexicographic comparison of character lists by code point
(Array.prototype.sort compares strings by UTF-16 code unit; the two orders
coincide on this data). -/
def charsLe : List Char → List Char → Bool
  | [], _ => true
  | _ :: _, [] => false
  | c :: cs, d :: ds =>
      if c.toNat < d.toNat then true
      else if d.toNat < c.toNat then false
      else charsLe cs ds

/-- String comparison used by the key sort. -/
def stringLe (a b : String) : Bool := charsLe a.data b.data

/-- Insertion into a sorted string list. -/
def insertSorted (s : String) : List String → List String
  | [] => [s]
  | t :: ts => if stringLe s t then s :: t :: ts else t :: insertSorted s ts

/-- Object.keys(params).sort(). -/
def sortStrings : List String → List String
  | [] => []
  | s :: ss => insertSorted s (sortStrings ss)

/-- hashRequest: JSON.stringify(params, Object.keys(params).sort()).  The
second argument is a replacer ARRAY, so nested objects are filtered to the
top-level key names as well. -/
def hashRequest (params : JsonFields) : String :=
  serialize (sortStrings params.keys) (.obj params)

/-- A lowercase-alphanumeric character, the regex class [a-z0-9]. -/
def isAlnumLower (c : Char) : Bool :=
  ('a' ≤ c && c ≤ 'z') || ('0' ≤ c && c ≤ '9')

/-- All characters in the [a-z0-9] class. -/
def allAlnumLower : List Char → Bool
  | [] => true
  | c :: cs => isAlnumLower c && allAlnumLower cs

/-- The regex fragment [a-z0-9]+$ (nonempty alphanumeric to the end). -/
def matchSecondGroup (cs : List Char) : Bool :=
  match cs with
  | [] => false
  | c :: rest => isAlnumLower c && allAlnumLower rest

/-- The regex fragment [a-z0-9]+_[a-z0-9]+$: since the class excludes the
underscore, the separator is forced to the first underscore. -/
def matchKeyTail (seenOne : Bool) : List Char → Bool
  | [] => false
  | c :: rest =>
      if c = '_' then seenOne && matchSecondGroup rest
      else isAlnumLower c && matchKeyTail true rest

/-- isValidIdempotencyKey: the anchored regex idem_[a-z0-9]+_[a-z0-9]+
together with a minimum length of 15. -/
def isValidIdempotencyKey (key : String) : Bool :=
  (match key.data with
   | 'i' :: 'd' :: 'e' :: 'm' :: '_' :: rest => matchKeyTail false rest
   | _ => false)
  && key.length ≥ 15

end Idempotency

namespace PaymentsApi

open Idempotency

/-- JavaScript truthiness of a JSON value (NaN never occurs here). -/
def jsTruthy : Json → Bool
  | .null => false
  | .bool b => b
  | .num n => !(n = 0)
  | .str s => !(s = "")
  | .arr _ => true
  | .obj _ => true

/-- The JavaScript or-default idiom `x || d` on an optionally-present
property (absent and falsy both fall back to the default). -/
def jsOr (v : Option Json) (d : Json) : Json :=
  match v with
  | some j => if jsTruthy j then j else d
  | none => d

/-- The or-default idiom on optional strings, `body.f || current`: an empty
string is falsy and falls back. -/
def jsOrStr (v : Option String) (d : Option String) : Option String :=
  match v with
  | some s => if s = "" then d else some s
  | none => d

/-- A stored Payment.  Fields copied verbatim from the request body keep
their JSON form (their type is not validated by the handler); an Option
models a possibly-undefined property. -/
structure Payment where
  id : String
  idempotencyKey : String
  status : PaymentStatus
  amount : Option Json
  currency : Json
  intent : Json
  merchantId : Option Json
  merchantName : String
  customerId : Json
  description : Json
  transactionIds : List String
  failureCode : Option String
  failureMessage : Option String
  metadata : Json
  createdAt : String
  updatedAt : String
  completedAt : Option String
deriving DecidableEq, Repr

/-- A payment store entry: payment, optimistic-lock version, and the hash of
the creating request. -/
structure StoredPayment where
  payment : Payment
  version : Nat
  idempotencyHash : Option String
deriving DecidableEq, Repr

/-- An idempotencyKeyStore entry. -/
structure IdemRecord where
  paymentId : String
  requestHash : String
  result : Payment
deriving DecidableEq, Repr

/-- Map.get on an association-list model of a JavaScript Map. -/
def mapGet {β : Type} : List (String × β) → String → Option β
  | [], _ => none
  | e :: rest, k => if e.1 = k then some e.2 else mapGet rest k

/-- Map.set: replace in place if the key exists, else append. -/
def mapSet {β : Type} : List (String × β) → String → β → List (String × β)
  | [], k, v => [(k, v)]
  | e :: rest, k, v => if e.1 = k then (k, v) :: rest else e :: mapSet rest k v

theorem mapGet_mapSet_self {β : Type} (m : List (String × β)) (k : String) (v : β) :
    mapGet (mapSet m k v) k = some v := by
  induction m with
  | nil => simp [mapGet, mapSet]
  | cons e rest ih =>
      by_cases h : e.1 = k
      · simp [mapSet, h, mapGet]
      · simp [mapSet, h, mapGet, ih]

theorem mapGet_mapSet_ne {β : Type} (m : List (String × β)) (k k' : String)
    (v : β) (h : k ≠ k') : mapGet (mapSet m k v) k' = mapGet m k' := by
  induction m with
  | nil => simp [mapGet, mapSet, h]
  | cons e rest ih =>
      by_cases he : e.1 = k
      · simp [mapSet, he, mapGet, h]
      · simp [mapSet, he, mapGet, ih]

/-- The amount guard `!body.amount || body.amount <= 0`: absent or falsy
amounts are invalid, and a numeric amount must be positive.  (A non-numeric
truthy amount would be compared after a JavaScript ToNumber coercion; the
bodies of this development carry numeric amounts.) -/
def amountInvalid (body : JsonFields) : Bool :=
  match body.get "amount" with
  | none => true
  | some j =>
      !(jsTruthy j) ||
        (match j with
         | .num n => n ≤ 0
         | _ => false)

/-- The Payment object literal built by the create handler.  Generated data
(the id and the clock) are passed in as parameters. -/
def mkPayment (key : String) (body : JsonFields) (newId now : String) : Payment :=
  { id := newId
    idempotencyKey := key
    status := .draft
    amount := body.get "amount"
    currency := jsOr (body.get "currency") (.str "USD")
    intent := jsOr (body.get "intent") (.str "capture")
    merchantId := body.get "merchantId"
    merchantName := "Demo Merchant"
    customerId := jsOr (body.get "customerId") .null
    description := jsOr (body.get "description") .null
    transactionIds := []
    failureCode := none
    failureMessage := none
    metadata := jsOr (body.get "metadata") (.obj .nil)
    createdAt := now
    updatedAt := now
    completedAt := none }

/-- The create handler's outcome: 400 missing or malformed key, 422
conflict, 200 with the original result, 400 invalid amount, or 201 with the
new Payment. -/
inductive CreateResult where
  | missingKey
  | invalidKey
  | conflict (existingPaymentId : String)
  | okOriginal (result : Payment)
  | invalidAmount
  | created (p : Payment)
deriving DecidableEq, Repr

/-- The two process-wide stores of the payment handlers. -/
structure PayState where
  payments : List (String × StoredPayment)
  idem : List (String × IdemRecord)
deriving DecidableEq, Repr

/-- POST /api/payments: key checks, then the idempotency lookup (conflict on
a differing fingerprint, otherwise the cached original), then amount
validation, then creation of a draft Payment recorded in both stores. -/
def createPayment (headerKey : Option String) (body : JsonFields)
    (newId now : String) (st : PayState) : CreateResult × PayState :=
  match headerKey with
  | none => (.missingKey, st)
  | some key =>
      if !(isValidIdempotencyKey key) then (.invalidKey, st)
      else
        let requestHash := hashRequest body
        match mapGet st.idem key with
        | some existing =>
            if existing.requestHash ≠ requestHash then
              (.conflict existing.paymentId, st)
            else (.okOriginal existing.result, st)
        | none =>
            if amountInvalid body then (.invalidAmount, st)
            else
              let payment := mkPayment key body newId now
              let payments := mapSet st.payments payment.id
                { payment := payment, version := 1, idempotencyHash := some requestHash }
              let idem := mapSet st.idem key
                { paymentId := payment.id, requestHash := requestHash, result := payment }
              (.created payment, { payments := payments, idem := idem })

/-- The transition request body. -/
structure TransitionReq where
  targetStatus : PaymentStatus
  failureCode : Option String
  failureMessage : Option String
  expectedVersion : Option Nat
deriving DecidableEq, Repr

/-- The transition handler's outcome: 404, 409 concurrent modification, 200
no-op (already at target), 422 invalid transition, or 200 with the updated
payment. -/
inductive TransitionResult where
  | notFound
  | concurrentModification (expected actual : Nat)
  | okNoop (p : Payment)
  | invalidTransition (message : String)
  | okApplied (p : Payment)
deriving DecidableEq, Repr

/-- Whether an outcome is the 409 CONCURRENT_MODIFICATION rejection. -/
def TransitionResult.isConflict409 : TransitionResult → Bool
  | .concurrentModification _ _ => true
  | _ => false

/-- The updated Payment literal of the transition handler. -/
def appliedPayment (p : Payment) (req : TransitionReq) (now : String) : Payment :=
  { p with
    status := req.targetStatus
    updatedAt := now
    failureCode := jsOrStr req.failureCode p.failureCode
    failureMessage := jsOrStr req.failureMessage p.failureMessage
    completedAt :=
      if [PaymentStatus.succeeded, .failed, .canceled].contains req.targetStatus
      then some now else p.completedAt }

/-- The transition handler after the optimistic-lock check: no-op success
when already at the target, 422 when the state machine rejects, otherwise
apply the transition, bump the version, and refresh the idempotency record
for the payment's key when one exists. -/
def transitionAfterLock (stored : StoredPayment)
    (idem : List (String × IdemRecord)) (req : TransitionReq) (now : String) :
    TransitionResult × Option StoredPayment × List (String × IdemRecord) :=
  if stored.payment.status = req.targetStatus then
    (.okNoop stored.payment, some stored, idem)
  else if !(PaymentLifecycle.canTransition stored.payment.status req.targetStatus) then
    (.invalidTransition
      (PaymentLifecycle.getTransitionBlockReason stored.payment.status req.targetStatus),
      some stored, idem)
  else
    let updatedPayment := appliedPayment stored.payment req now
    let stored' : StoredPayment :=
      { payment := updatedPayment, version := stored.version + 1,
        idempotencyHash := stored.idempotencyHash }
    let idem' :=
      match mapGet idem updatedPayment.idempotencyKey with
      | some idemRecord =>
          mapSet idem updatedPayment.idempotencyKey
            { idemRecord with result := updatedPayment }
      | none => idem
    (.okApplied updatedPayment, some stored', idem')

/-- POST /api/payments/:id/transition: 404 on an unknown id; then the
optimistic-lock check (409 when expectedVersion is supplied and differs from
the stored version); then the body above. -/
def transitionPayment (stored? : Option StoredPayment)
    (idem : List (String × IdemRecord)) (req : TransitionReq) (now : String) :
    TransitionResult × Option StoredPayment × List (String × IdemRecord) :=
  match stored? with
  | none => (.notFound, none, idem)
  | some stored =>
      match req.expectedVersion with
      | some v =>
          if v ≠ stored.version then
            (.concurrentModification v stored.version, some stored, idem)
          else transitionAfterLock stored idem req now
      | none => transitionAfterLock stored idem req now

/-- The idempotencyKey field of the updated payment is the original one. -/
@[simp] theorem appliedPayment_idempotencyKey (p : Payment) (req : TransitionReq)
    (now : String) : (appliedPayment p req now).idempotencyKey = p.idempotencyKey := rfl

/-- The id field of the payment literal is the generated id. -/
@[simp] theorem mkPayment_id (key : String) (body : Idempotency.JsonFields)
    (newId now : String) : (mkPayment key body newId now).id = newId := rfl

/-- The branch after the optimistic-lock check never produces the 409
outcome. -/
theorem transitionAfterLock_not_conflict409 (stored : StoredPayment)
    (idem : List (String × IdemRecord)) (req : TransitionReq) (now : String) :
    (transitionAfterLock stored idem req now).1.isConflict409 = false := by
  unfold transitionAfterLock
  split
  · rfl
  · split
    · rfl
    · rfl

end PaymentsApi

/-- A fixed well-formed idempotency key used by concrete runs. -/
def sampleKey : String := "idem_abc123_xyz789"

/-- A concrete creation body: amount 1000, currency USD, merchant m1, and a
nested metadata object carrying note "a". -/
def sampleBodyA : Idempotency.JsonFields :=
  .cons "amount" (.num 1000) (.cons "currency" (.str "USD")
    (.cons "merchantId" (.str "m1")
      (.cons "metadata" (.obj (.cons "note" (.str "a") .nil)) .nil)))

/-- The same body with the nested metadata note changed to "b": a different
value that differs only in a nested field. -/
def sampleBodyB : Idempotency.JsonFields :=
  .cons "amount" (.num 1000) (.cons "currency" (.str "USD")
    (.cons "merchantId" (.str "m1")
      (.cons "metadata" (.obj (.cons "note" (.str "b") .nil)) .nil)))

/-- The same body with the top-level amount changed to 2000. -/
def sampleBodyC : Idempotency.JsonFields :=
  .cons "amount" (.num 2000) (.cons "currency" (.str "USD")
    (.cons "merchantId" (.str "m1")
      (.cons "metadata" (.obj (.cons "note" (.str "a") .nil)) .nil)))

/-- Claim C2 amended: with a valid key unseen in the store and a valid
amount, the first createPayment call creates a draft Payment and records it
in both stores; a second call with the same key returns the original
payment (HTTP 200) exactly when the two bodies' request fingerprints are
equal, and rejects with the idempotency conflict (HTTP 422) exactly when
they differ — in both cases leaving the stores untouched.  Because the
fingerprint is JSON.stringify with the sorted top-level key names as a
replacer ARRAY, nested objects are filtered to those same names, so two
bodies differing only in nested fields (metadata entries, paymentMethod
internals) have equal fingerprints and the differing second call is served
as a duplicate, not a conflict. -/
theorem C2_idempotent_creation (key : String) (b1 b2 : Idempotency.JsonFields)
    (id1 id2 t1 t2 : String) (st : PaymentsApi.PayState)
    (hkey : Idempotency.isValidIdempotencyKey key = true)
    (hfresh : PaymentsApi.mapGet st.idem key = none)
    (hamt : PaymentsApi.amountInvalid b1 = false) :
    PaymentsApi.createPayment (some key) b1 id1 t1 st
      = (.created (PaymentsApi.mkPayment key b1 id1 t1),
         { payments := PaymentsApi.mapSet st.payments id1
             { payment := PaymentsApi.mkPayment key b1 id1 t1, version := 1,
               idempotencyHash := some (Idempotency.hashRequest b1) },
           idem := PaymentsApi.mapSet st.idem key
             { paymentId := id1, requestHash := Idempotency.hashRequest b1,
               result := PaymentsApi.mkPayment key b1 id1 t1 } })
    ∧ (Idempotency.hashRequest b2 = Idempotency.hashRequest b1 →
        PaymentsApi.createPayment (some key) b2 id2 t2
            (PaymentsApi.createPayment (some key) b1 id1 t1 st).2
          = (.okOriginal (PaymentsApi.mkPayment key b1 id1 t1),
             (PaymentsApi.createPayment (some key) b1 id1 t1 st).2))
    ∧ (Idempotency.hashRequest b2 ≠ Idempotency.hashRequest b1 →
        PaymentsApi.createPayment (some key) b2 id2 t2
            (PaymentsApi.createPayment (some key) b1 id1 t1 st).2
          = (.conflict id1,
             (PaymentsApi.createPayment (some key) b1 id1 t1 st).2)) := by
  have hfirst : PaymentsApi.createPayment (some key) b1 id1 t1 st
      = (.created (PaymentsApi.mkPayment key b1 id1 t1),
         { payments := PaymentsApi.mapSet st.payments id1
             { payment := PaymentsApi.mkPayment key b1 id1 t1, version := 1,
               idempotencyHash := some (Idempotency.hashRequest b1) },
           idem := PaymentsApi.mapSet st.idem key
             { paymentId := id1, requestHash := Idempotency.hashRequest b1,
               result := PaymentsApi.mkPayment key b1 id1 t1 } }) := by
    unfold PaymentsApi.createPayment
    simp [hkey, hfresh, hamt]
  refine ⟨hfirst, fun h => ?_, fun h => ?_⟩
  · rw [hfirst]
    unfold PaymentsApi.createPayment
    simp [hkey, PaymentsApi.mapGet_mapSet_self, h]
  · rw [hfirst]
    unfold PaymentsApi.createPayment
    simp [hkey, PaymentsApi.mapGet_mapSet_self, Ne.symm h]

/-- Claim C2 counterexample: sampleBodyA and sampleBodyB are different
bodies (their nested metadata notes differ), yet their request fingerprints
are equal, and a second createPayment call with the same key and the
differing body returns HTTP 200 with the original payment instead of the
claimed 422 idempotency conflict. -/
theorem C2_nested_fields_counterexample :
    sampleBodyA ≠ sampleBodyB
    ∧ Idempotency.hashRequest sampleBodyA = Idempotency.hashRequest sampleBodyB
    ∧ (PaymentsApi.createPayment (some sampleKey) sampleBodyB "pay_2" "t2"
         (PaymentsApi.createPayment (some sampleKey) sampleBodyA "pay_1" "t1"
            { payments := [], idem := [] }).2).1
        = .okOriginal (PaymentsApi.mkPayment sampleKey sampleBodyA "pay_1" "t1") := by
  refine ⟨by decide, by decide, by decide⟩

/-- Claim C2 witness: the concrete key, bodies and stores satisfying the
theorem's hypotheses, with the top-level amount change producing the 422
conflict and leaving the stores unchanged. -/
theorem C2_idempotent_creation_witness :
    Idempotency.isValidIdempotencyKey sampleKey = true
    ∧ PaymentsApi.mapGet ({ payments := [], idem := [] } : PaymentsApi.PayState).idem sampleKey = none
    ∧ PaymentsApi.amountInvalid sampleBodyA = false
    ∧ Idempotency.hashRequest sampleBodyC ≠ Idempotency.hashRequest sampleBodyA
    ∧ PaymentsApi.createPayment (some sampleKey) sampleBodyC "pay_2" "t2"
         (PaymentsApi.createPayment (some sampleKey) sampleBodyA "pay_1" "t1"
            { payments := [], idem := [] }).2
        = (.conflict "pay_1",
           (PaymentsApi.createPayment (some sampleKey) sampleBodyA "pay_1" "t1"
              { payments := [], idem := [] }).2) := by
  refine ⟨by decide, rfl, by decide, by decide, ?_⟩
  exact (C2_idempotent_creation sampleKey sampleBodyA sampleBodyC "pay_1" "pay_2"
    "t1" "t2" { payments := [], idem := [] } (by decide) rfl (by decide)).2.2 (by decide)

/-- The payment created by the first concrete createPayment run. -/
def samplePayment0 : PaymentsApi.Payment :=
  PaymentsApi.mkPayment sampleKey sampleBodyA "pay_1" "t1"

/-- Its store entry at version 1. -/
def sampleStored0 : PaymentsApi.StoredPayment :=
  { payment := samplePayment0, version := 1,
    idempotencyHash := some (Idempotency.hashRequest sampleBodyA) }

/-- The idempotency store holding the creation record for sampleKey. -/
def sampleIdem0 : List (String × PaymentsApi.IdemRecord) :=
  [(sampleKey, { paymentId := "pay_1",
                 requestHash := Idempotency.hashRequest sampleBodyA,
                 result := samplePayment0 })]

/-- A transition request from draft to submitted with no expectedVersion. -/
def sampleSubmitReq : PaymentsApi.TransitionReq :=
  { targetStatus := .submitted, failureCode := none, failureMessage := none,
    expectedVersion := none }

/-- Claim C6 counterexample: after the creation result for sampleKey has
been committed, transitioning the payment from draft to submitted replaces
the stored idempotency record — the cached result's status changes from
draft to submitted — although the record has not expired. -/
theorem C6_commit_overwritten_counterexample :
    PaymentsApi.mapGet
        (PaymentsApi.transitionPayment (some sampleStored0) sampleIdem0
          sampleSubmitReq "t2").2.2 sampleKey
      ≠ PaymentsApi.mapGet sampleIdem0 sampleKey
    ∧ (PaymentsApi.mapGet
        (PaymentsApi.transitionPayment (some sampleStored0) sampleIdem0
          sampleSubmitReq "t2").2.2 sampleKey).map (fun r => r.result.status)
        = some PaymentStatus.submitted
    ∧ (PaymentsApi.mapGet sampleIdem0 sampleKey).map (fun r => r.result.status)
        = some PaymentStatus.draft := by
  refine ⟨by decide, by decide, by decide⟩

/-- Claim C6 amended: the idempotency record is not write-once — whenever a
legal transition is applied to a payment whose key has a committed record,
the handler replaces that record; the replacement preserves the record's
requestHash fingerprint and paymentId and refreshes only the cached result
to the post-transition payment. -/
theorem C6_transition_refreshes_cached_result (stored : PaymentsApi.StoredPayment)
    (idem : List (String × PaymentsApi.IdemRecord)) (req : PaymentsApi.TransitionReq)
    (now : String) (rec : PaymentsApi.IdemRecord)
    (hver : req.expectedVersion = none)
    (hne : stored.payment.status ≠ req.targetStatus)
    (hlegal : PaymentLifecycle.canTransition stored.payment.status req.targetStatus = true)
    (hrec : PaymentsApi.mapGet idem stored.payment.idempotencyKey = some rec) :
    (PaymentsApi.transitionPayment (some stored) idem req now).2.2
      = PaymentsApi.mapSet idem stored.payment.idempotencyKey
          { rec with result := PaymentsApi.appliedPayment stored.payment req now } := by
  unfold PaymentsApi.transitionPayment PaymentsApi.transitionAfterLock
  simp [hver, hne, hlegal, hrec]

/-- Claim C6 witness: the concrete draft-to-submitted run of the amended
theorem. -/
theorem C6_transition_refreshes_cached_result_witness :
    sampleSubmitReq.expectedVersion = none
    ∧ sampleStored0.payment.status ≠ sampleSubmitReq.targetStatus
    ∧ PaymentLifecycle.canTransition sampleStored0.payment.status
        sampleSubmitReq.targetStatus = true
    ∧ PaymentsApi.mapGet sampleIdem0 sampleStored0.payment.idempotencyKey
        = some { paymentId := "pay_1",
                 requestHash := Idempotency.hashRequest sampleBodyA,
                 result := samplePayment0 }
    ∧ (PaymentsApi.transitionPayment (some sampleStored0) sampleIdem0
          sampleSubmitReq "t2").2.2
        = PaymentsApi.mapSet sampleIdem0 sampleStored0.payment.idempotencyKey
            { paymentId := "pay_1",
              requestHash := Idempotency.hashRequest sampleBodyA,
              result := PaymentsApi.appliedPayment sampleStored0.payment
                sampleSubmitReq "t2" } :=
  ⟨rfl, by decide, by decide, rfl,
    C6_transition_refreshes_cached_result sampleStored0 sampleIdem0 sampleSubmitReq
      "t2" _ rfl (by decide) (by decide) rfl⟩

/-- Claim C8: a transition request whose target equals the current status is
answered with the no-op success carrying the unchanged payment, with the
stored entry (version included) and the idempotency store untouched,
whenever the supplied expectedVersion, if any, matches the stored version —
for every stored payment, terminal ones included. -/
theorem C8_transition_noop (stored : PaymentsApi.StoredPayment)
    (idem : List (String × PaymentsApi.IdemRecord)) (req : PaymentsApi.TransitionReq)
    (now : String)
    (htgt : req.targetStatus = stored.payment.status)
    (hver : req.expectedVersion = none ∨ req.expectedVersion = some stored.version) :
    PaymentsApi.transitionPayment (some stored) idem req now
      = (.okNoop stored.payment, some stored, idem) := by
  rcases hver with h | h <;>
    simp [PaymentsApi.transitionPayment, PaymentsApi.transitionAfterLock, h, htgt]

/-- Claim C8 witness: a payment already in the terminal status succeeded,
asked to transition to succeeded with a matching expectedVersion. -/
theorem C8_transition_noop_witness :
    ({ targetStatus := .succeeded, failureCode := none, failureMessage := none,
       expectedVersion := some 3 } : PaymentsApi.TransitionReq).targetStatus
      = ({ payment := { samplePayment0 with status := .succeeded }, version := 3,
           idempotencyHash := none } : PaymentsApi.StoredPayment).payment.status
    ∧ PaymentsApi.transitionPayment
        (some { payment := { samplePayment0 with status := .succeeded }, version := 3,
                idempotencyHash := none }) []
        { targetStatus := .succeeded, failureCode := none, failureMessage := none,
          expectedVersion := some 3 } "t5"
      = (.okNoop { samplePayment0 with status := .succeeded },
         some { payment := { samplePayment0 with status := .succeeded }, version := 3,
                idempotencyHash := none }, []) :=
  ⟨rfl, C8_transition_noop _ [] _ "t5" rfl (Or.inr rfl)⟩

/-- Claim C9: the transition endpoint answers 409 CONCURRENT_MODIFICATION
exactly when an expectedVersion is supplied and differs from the stored
version; on that rejection the stored entry and the idempotency store are
unchanged; and when expectedVersion is omitted the lock check is skipped —
an otherwise-legal transition is applied with a version bump whatever the
stored version is. -/
theorem C9_optimistic_locking (stored : PaymentsApi.StoredPayment)
    (idem : List (String × PaymentsApi.IdemRecord)) (req : PaymentsApi.TransitionReq)
    (now : String) :
    ((PaymentsApi.transitionPayment (some stored) idem req now).1.isConflict409 = true
       ↔ ∃ v, req.expectedVersion = some v ∧ v ≠ stored.version)
    ∧ (∀ v, req.expectedVersion = some v → v ≠ stored.version →
         PaymentsApi.transitionPayment (some stored) idem req now
           = (.concurrentModification v stored.version, some stored, idem))
    ∧ (req.expectedVersion = none →
         stored.payment.status ≠ req.targetStatus →
         PaymentLifecycle.canTransition stored.payment.status req.targetStatus = true →
         (PaymentsApi.transitionPayment (some stored) idem req now).1
             = .okApplied (PaymentsApi.appliedPayment stored.payment req now)
           ∧ (PaymentsApi.transitionPayment (some stored) idem req now).2.1
             = some { payment := PaymentsApi.appliedPayment stored.payment req now,
                      version := stored.version + 1,
                      idempotencyHash := stored.idempotencyHash }) := by
  have hA : ∀ v, req.expectedVersion = some v → v ≠ stored.version →
      PaymentsApi.transitionPayment (some stored) idem req now
        = (.concurrentModification v stored.version, some stored, idem) := by
    intro v hv hne
    unfold PaymentsApi.transitionPayment
    rw [hv]
    simp [hne]
  have hfwd : (PaymentsApi.transitionPayment (some stored) idem req now).1.isConflict409 = true →
      ∃ v, req.expectedVersion = some v ∧ v ≠ stored.version := by
    intro h
    rcases hev : req.expectedVersion with _ | v
    · unfold PaymentsApi.transitionPayment at h
      rw [hev] at h
      rw [PaymentsApi.transitionAfterLock_not_conflict409] at h
      exact Bool.noConfusion h
    · by_cases hne : v = stored.version
      · unfold PaymentsApi.transitionPayment at h
        rw [hev] at h
        simp only [hne, ne_eq, not_true_eq_false, if_false, ite_false] at h
        rw [PaymentsApi.transitionAfterLock_not_conflict409] at h
        exact Bool.noConfusion h
      · exact ⟨v, rfl, hne⟩
  refine ⟨⟨hfwd, ?_⟩, hA, ?_⟩
  · rintro ⟨v, hv, hne⟩
    rw [hA v hv hne]
    rfl
  · intro hnone hne hlegal
    unfold PaymentsApi.transitionPayment
    rw [hnone]
    unfold PaymentsApi.transitionAfterLock
    simp [hne, hlegal]

/-- Claim C9 witness: a version mismatch (expected 2, stored 1) yields the
409 outcome at a concrete payment, instantiating the theorem. -/
theorem C9_optimistic_locking_witness :
    ((PaymentsApi.transitionPayment (some sampleStored0) sampleIdem0
        { sampleSubmitReq with expectedVersion := some 2 } "t3").1.isConflict409 = true
       ↔ ∃ v, ({ sampleSubmitReq with expectedVersion := some 2 } :
            PaymentsApi.TransitionReq).expectedVersion = some v ∧ v ≠ sampleStored0.version)
    ∧ (∀ v, ({ sampleSubmitReq with expectedVersion := some 2 } :
            PaymentsApi.TransitionReq).expectedVersion = some v → v ≠ sampleStored0.version →
         PaymentsApi.transitionPayment (some sampleStored0) sampleIdem0
             { sampleSubmitReq with expectedVersion := some 2 } "t3"
           = (.concurrentModification v sampleStored0.version, some sampleStored0, sampleIdem0))
    ∧ (({ sampleSubmitReq with expectedVersion := some 2 } :
            PaymentsApi.TransitionReq).expectedVersion = none →
         sampleStored0.payment.status ≠ ({ sampleSubmitReq with expectedVersion := some 2 } :
            PaymentsApi.TransitionReq).targetStatus →
         PaymentLifecycle.canTransition sampleStored0.payment.status
             ({ sampleSubmitReq with expectedVersion := some 2 } :
                PaymentsApi.TransitionReq).targetStatus = true →
         (PaymentsApi.transitionPayment (some sampleStored0) sampleIdem0
             { sampleSubmitReq with expectedVersion := some 2 } "t3").1
             = .okApplied (PaymentsApi.appliedPayment sampleStored0.payment
                 { sampleSubmitReq with expectedVersion := some 2 } "t3")
           ∧ (PaymentsApi.transitionPayment (some sampleStored0) sampleIdem0
               { sampleSubmitReq with expectedVersion := some 2 } "t3").2.1
             = some { payment := PaymentsApi.appliedPayment sampleStored0.payment
                        { sampleSubmitReq with expectedVersion := some 2 } "t3",
                      version := sampleStored0.version + 1,
                      idempotencyHash := sampleStored0.idempotencyHash }) :=
  C9_optimistic_locking sampleStored0 sampleIdem0
    { sampleSubmitReq with expectedVersion := some 2 } "t3"

namespace Payouts

/-- Batch-level payout status. -/
inductive PayoutStatus where
  | pending
  | processing
  | in_transit
  | settled
  | partially_settled
  | failed
  | returned
  | requires_reconciliation
deriving DecidableEq, Repr

/-- Item-level payout status. -/
inductive PayoutItemStatus where
  | pending
  | settled
  | failed
  | returned
deriving DecidableEq, Repr

/-- Operator attention level. -/
inductive AttentionLevel where
  | none
  | info
  | warning
  | action_required
deriving DecidableEq, Repr

/-- A PayoutItem.  Monetary amounts are integer minor units. -/
structure PayoutItem where
  id : String
  transactionId : String
  status : PayoutItemStatus
  amount : Int
  fee : Int
  netAmount : Int
  merchantId : String
  failureCode : Option String
  failureMessage : Option String
  settledAt : Option String
deriving DecidableEq, Repr

/-- A PayoutBatch. -/
structure PayoutBatch where
  id : String
  status : PayoutStatus
  attentionLevel : AttentionLevel
  attentionReason : Option String
  merchantId : String
  merchantName : String
  itemCount : Nat
  settledItemCount : Nat
  failedItemCount : Nat
  grossAmount : Int
  totalFees : Int
  netAmount : Int
  settledAmount : Int
  currency : String
  items : List PayoutItem
  bankAccountLast4 : String
  settlementDays : Nat
  createdAt : String
  processedAt : Option String
  expectedSettlementAt : Option String
  settledAt : Option String
  failureReason : Option String
  reconciliationNotes : Option String
  lastReconciledAt : Option String
deriving DecidableEq, Repr

/-- The reconcile request body. -/
structure ReconcileReq where
  resolvedStatus : PayoutStatus
  notes : String
  settledAmount : Option Int
deriving DecidableEq, Repr

/-- The handler's validResolutions list. -/
def validResolutions : List PayoutStatus :=
  [.settled, .failed, .returned, .partially_settled]

/-- The reconcile handler's outcome: 404, 422 INVALID_STATE, 400
INVALID_STATUS, or 200 with the updated batch. -/
inductive ReconcileResult where
  | notFound
  | invalidState (current : PayoutStatus)
  | invalidStatus
  | ok (b : PayoutBatch)
deriving DecidableEq, Repr

/-- The updatedBatch literal: the batch with the resolved status, cleared
attention, the supplied notes stored, the reconciliation timestamp stamped,
settledAt stamped only when resolving to settled, and settledAmount taken
from the request when supplied (nullish coalescing). -/
def reconciledBatch (batch : PayoutBatch) (req : ReconcileReq) (now : String) :
    PayoutBatch :=
  { batch with
    status := req.resolvedStatus
    attentionLevel := AttentionLevel.none
    attentionReason := none
    reconciliationNotes := some req.notes
    lastReconciledAt := some now
    settledAt := if req.resolvedStatus = .settled then some now else batch.settledAt
    settledAmount := req.settledAmount.getD batch.settledAmount }

/-- POST /api/payouts/:id/reconcile: 404 on an unknown id; 422 unless the
batch is in requires_reconciliation or partially_settled; 400 unless the
resolvedStatus is one of the valid resolutions; otherwise store and return
the updated batch.  The notes field is never inspected. -/
def reconcilePayout (batch? : Option PayoutBatch) (req : ReconcileReq)
    (now : String) : ReconcileResult × Option PayoutBatch :=
  match batch? with
  | none => (.notFound, none)
  | some batch =>
      if batch.status ≠ .requires_reconciliation ∧ batch.status ≠ .partially_settled then
        (.invalidState batch.status, some batch)
      else if !(validResolutions.contains req.resolvedStatus) then
        (.invalidStatus, some batch)
      else
        (.ok (reconciledBatch batch req now), some (reconciledBatch batch req now))

end Payouts

/-- A concrete batch awaiting reconciliation whose second item is recorded
as failed. -/
def sampleBatch : Payouts.PayoutBatch :=
  { id := "payout_1"
    status := .requires_reconciliation
    attentionLevel := .action_required
    attentionReason := some "Bank response timeout. Verify settlement status before retry."
    merchantId := "merch_001"
    merchantName := "TechCorp Solutions"
    itemCount := 2
    settledItemCount := 1
    failedItemCount := 1
    grossAmount := 3000
    totalFees := 75
    netAmount := 2925
    settledAmount := 975
    currency := "USD"
    items :=
      [{ id := "item_1", transactionId := "txn_1", status := .settled,
         amount := 1000, fee := 25, netAmount := 975, merchantId := "merch_001",
         failureCode := none, failureMessage := none, settledAt := some "t0" },
       { id := "item_2", transactionId := "txn_2", status := .failed,
         amount := 2000, fee := 50, netAmount := 1950, merchantId := "merch_001",
         failureCode := some "invalid_account", failureMessage := some "Transfer could not be completed",
         settledAt := none }]
    bankAccountLast4 := "4242"
    settlementDays := 2
    createdAt := "t0"
    processedAt := some "t0"
    expectedSettlementAt := some "t1"
    settledAt := none
    failureReason := none
    reconciliationNotes := none
    lastReconciledAt := none }

/-- A reconcile request with an empty notes string. -/
def sampleEmptyNotesReq : Payouts.ReconcileReq :=
  { resolvedStatus := .settled, notes := "", settledAmount := none }

/-- Claim C4 counterexample: a batch in requires_reconciliation receiving a
reconcile request whose notes string is empty is NOT rejected: the request
succeeds, the batch's status changes to the resolved status and the empty
note is stored. -/
theorem C4_empty_notes_counterexample :
    (Payouts.reconcilePayout (some sampleBatch) sampleEmptyNotesReq "t9").1
        = .ok (Payouts.reconciledBatch sampleBatch sampleEmptyNotesReq "t9")
    ∧ (Payouts.reconciledBatch sampleBatch sampleEmptyNotesReq "t9").status
        = Payouts.PayoutStatus.settled
    ∧ sampleBatch.status = Payouts.PayoutStatus.requires_reconciliation
    ∧ (Payouts.reconciledBatch sampleBatch sampleEmptyNotesReq "t9").reconciliationNotes
        = some "" := by
  refine ⟨by decide, by decide, by decide, by decide⟩

/-- Claim C4 amended: the reconcile endpoint validates only the batch state
and the resolvedStatus; the notes field is not validated.  Every request
carrying a valid resolvedStatus against a batch in requires_reconciliation
or partially_settled succeeds — whatever its notes value, the empty string
included — storing the supplied notes verbatim.  (A non-empty note is
enforced only client-side, in the payout detail page.) -/
theorem C4_reconcile_notes_not_validated (batch : Payouts.PayoutBatch)
    (req : Payouts.ReconcileReq) (now : String)
    (hstate : batch.status = .requires_reconciliation ∨ batch.status = .partially_settled)
    (hres : Payouts.validResolutions.contains req.resolvedStatus = true) :
    Payouts.reconcilePayout (some batch) req now
      = (.ok (Payouts.reconciledBatch batch req now),
         some (Payouts.reconciledBatch batch req now)) := by
  have hres2 : req.resolvedStatus ∈ Payouts.validResolutions := by simpa using hres
  unfold Payouts.reconcilePayout
  rcases hstate with h | h <;> simp [h, hres2]

/-- Claim C4 witness: the concrete empty-notes run of the amended theorem. -/
theorem C4_reconcile_notes_not_validated_witness :
    (sampleBatch.status = .requires_reconciliation
      ∨ sampleBatch.status = .partially_settled)
    ∧ Payouts.validResolutions.contains sampleEmptyNotesReq.resolvedStatus = true
    ∧ Payouts.reconcilePayout (some sampleBatch) sampleEmptyNotesReq "t9"
        = (.ok (Payouts.reconciledBatch sampleBatch sampleEmptyNotesReq "t9"),
           some (Payouts.reconciledBatch sampleBatch sampleEmptyNotesReq "t9")) :=
  ⟨Or.inl rfl, by decide,
    C4_reconcile_notes_not_validated sampleBatch sampleEmptyNotesReq "t9"
      (Or.inl rfl) (by decide)⟩

/-- Claim C10: a successful reconcile mutates only the batch-level fields
named by the claim — the items array (every item's status with it), the
settledItemCount and failedItemCount counters, and every other identifying
or monetary field are returned exactly as stored, even when the resolution
is settled while items are recorded as failed. -/
theorem C10_reconcile_frame (batch : Payouts.PayoutBatch)
    (req : Payouts.ReconcileReq) (now : String)
    (hstate : batch.status = .requires_reconciliation ∨ batch.status = .partially_settled)
    (hres : Payouts.validResolutions.contains req.resolvedStatus = true) :
    Payouts.reconcilePayout (some batch) req now
      = (.ok (Payouts.reconciledBatch batch req now),
         some (Payouts.reconciledBatch batch req now))
    ∧ (Payouts.reconciledBatch batch req now).items = batch.items
    ∧ (Payouts.reconciledBatch batch req now).settledItemCount = batch.settledItemCount
    ∧ (Payouts.reconciledBatch batch req now).failedItemCount = batch.failedItemCount
    ∧ (Payouts.reconciledBatch batch req now).itemCount = batch.itemCount
    ∧ (Payouts.reconciledBatch batch req now).id = batch.id
    ∧ (Payouts.reconciledBatch batch req now).merchantId = batch.merchantId
    ∧ (Payouts.reconciledBatch batch req now).merchantName = batch.merchantName
    ∧ (Payouts.reconciledBatch batch req now).grossAmount = batch.grossAmount
    ∧ (Payouts.reconciledBatch batch req now).totalFees = batch.totalFees
    ∧ (Payouts.reconciledBatch batch req now).netAmount = batch.netAmount
    ∧ (Payouts.reconciledBatch batch req now).currency = batch.currency
    ∧ (Payouts.reconciledBatch batch req now).bankAccountLast4 = batch.bankAccountLast4
    ∧ (Payouts.reconciledBatch batch req now).settlementDays = batch.settlementDays
    ∧ (Payouts.reconciledBatch batch req now).createdAt = batch.createdAt
    ∧ (Payouts.reconciledBatch batch req now).processedAt = batch.processedAt
    ∧ (Payouts.reconciledBatch batch req now).expectedSettlementAt = batch.expectedSettlementAt
    ∧ (Payouts.reconciledBatch batch req now).failureReason = batch.failureReason := by
  refine ⟨?_, rfl, rfl, rfl, rfl, rfl, rfl, rfl, rfl, rfl, rfl, rfl, rfl, rfl, rfl, rfl, rfl, rfl⟩
  have hres2 : req.resolvedStatus ∈ Payouts.validResolutions := by simpa using hres
  unfold Payouts.reconcilePayout
  rcases hstate with h | h <;> simp [h, hres2]

/-- Claim C10 witness: resolving the sample batch (one settled item, one
failed item) to settled with a note leaves its items, counters, and the
other frame fields untouched. -/
theorem C10_reconcile_frame_witness :
    (sampleBatch.status = .requires_reconciliation
      ∨ sampleBatch.status = .partially_settled)
    ∧ Payouts.validResolutions.contains
        ({ resolvedStatus := .settled, notes := "Verified with bank",
           settledAmount := some 2925 } : Payouts.ReconcileReq).resolvedStatus = true
    ∧ (Payouts.reconciledBatch sampleBatch
        { resolvedStatus := .settled, notes := "Verified with bank",
          settledAmount := some 2925 } "t9").items = sampleBatch.items
    ∧ (Payouts.reconciledBatch sampleBatch
        { resolvedStatus := .settled, notes := "Verified with bank",
          settledAmount := some 2925 } "t9").settledItemCount = sampleBatch.settledItemCount
    ∧ (Payouts.reconciledBatch sampleBatch
        { resolvedStatus := .settled, notes := "Verified with bank",
          settledAmount := some 2925 } "t9").failedItemCount = sampleBatch.failedItemCount :=
  ⟨Or.inl rfl, by decide,
    (C10_reconcile_frame sampleBatch _ "t9" (Or.inl rfl) (by decide)).2.1,
    (C10_reconcile_frame sampleBatch _ "t9" (Or.inl rfl) (by decide)).2.2.1,
    (C10_reconcile_frame sampleBatch _ "t9" (Or.inl rfl) (by decide)).2.2.2.1⟩
